import Mathlib

/-!
Verification of the `logd` log-sink servers.

The repository has two source files:
  * `scripts/servers/http/main.py`  — a Flask endpoint `receive_logs` that
    accepts a JSON body, increments a global `batch_count`, and prints a
    framed block of the batch entries to the console;
  * `scripts/servers/socket/main.py` — a websocket server whose per-message
    handler increments a shared `message_count`, tries `json.loads`, and
    prints a framed block per message.

This file is a shallow embedding of those handlers.  Conventions:

  * JSON values are modelled by the inductive `Json`.  Model restriction:
    JSON numbers are modelled as integers (`Int`); the floating-point number
    grammar is outside the embedding, so `loads` rejects bodies containing
    a fraction or exponent part.  No claim below exercises a float.
  * Network, clock and routing machinery (Flask, websockets, `datetime.now`,
    `request.remote_addr`) are the external boundary: the embedded handlers
    take the parse result of `request.get_json()` (`Option Json`, `none` when
    the call raised), the client address and the timestamp as parameters.
  * Console output is modelled as the list of printed lines with the ANSI
    style constants (`DIM`, `BOLD`, `RESET`, colours) stripped; the design
    documents those constants as excluded terminal styling.
  * Python exception message texts produced inside library calls are not
    modelled verbatim; the embedded error payloads carry fixed strings and
    no theorem depends on their exact wording.
-/

/-- A JSON value as produced by Python's `json.loads`: objects keep their
fields in insertion order (Python dicts are ordered).  Numbers are modelled
as integers (see the model restriction above). -/
inductive Json where
  | null
  | bool (b : Bool)
  | num (n : Int)
  | str (s : String)
  | arr (elems : List Json)
  | obj (fields : List (String × Json))

/-- A run of `n` spaces, as produced by `' ' * n` indentation. -/
def spaces (n : Nat) : String :=
  String.mk (List.replicate n ' ')

/-- Left-pad the decimal form of `n` with zeros to width `w`: Python's
`f"{n:0w}"` for a non-negative `n`. -/
def zfill (w : Nat) (n : Nat) : String :=
  let s := toString n
  if s.length < w then String.mk (List.replicate (w - s.length) '0') ++ s else s

/-- Lower-case hexadecimal digit. -/
def hexDigit (n : Nat) : Char :=
  if n < 10 then Char.ofNat (48 + n) else Char.ofNat (87 + n)

/-- Four lower-case hex digits, as in a JSON `\uXXXX` escape. -/
def hex4 (n : Nat) : String :=
  String.mk [hexDigit (n / 4096 % 16), hexDigit (n / 256 % 16),
             hexDigit (n / 16 % 16), hexDigit (n % 16)]

/-- How `json.dumps` (with its default `ensure_ascii=True`) writes one
character of a string: short escapes for the JSON specials, `\uXXXX` for
other control characters and for every non-ASCII character (a surrogate
pair above U+FFFF), the character itself otherwise. -/
def dumpChar (c : Char) : String :=
  if c = Char.ofNat 34 then "\\\""
  else if c = Char.ofNat 92 then "\\\\"
  else if c = Char.ofNat 10 then "\\n"
  else if c = Char.ofNat 9 then "\\t"
  else if c = Char.ofNat 13 then "\\r"
  else if c = Char.ofNat 8 then "\\b"
  else if c = Char.ofNat 12 then "\\f"
  else if c.toNat < 32 then "\\u" ++ hex4 c.toNat
  else if c.toNat ≤ 126 then String.mk [c]
  else if c.toNat < 65536 then "\\u" ++ hex4 c.toNat
  else
    let v := c.toNat - 65536
    "\\u" ++ hex4 (55296 + v / 1024) ++ "\\u" ++ hex4 (56320 + v % 1024)

/-- A JSON string literal as written by `json.dumps`. -/
def dumpString (s : String) : String :=
  "\"" ++ String.join (s.toList.map dumpChar) ++ "\""

mutual

/-- `json.dumps(v, indent=2)` at current indentation level `ind`: scalars
inline; a non-empty array or object opens its bracket, writes each item on
its own line indented two spaces deeper, and closes the bracket at level
`ind`; empty containers collapse to `[]` / `\x7b\x7d`.  With an `indent`
argument Python separates items with `","` + newline and keys from values
with `": "`. -/
def dumps (ind : Nat) : Json → String
  | .null => "null"
  | .bool true => "true"
  | .bool false => "false"
  | .num n => toString n
  | .str s => dumpString s
  | .arr [] => "[]"
  | .arr (x :: xs) =>
      "[\n" ++ dumpsItems (ind + 2) x xs ++ "\n" ++ spaces ind ++ "]"
  | .obj [] => "\x7b\x7d"
  | .obj ((k, v) :: fs) =>
      "\x7b\n" ++ dumpsFields (ind + 2) k v fs ++ "\n" ++ spaces ind ++ "\x7d"
termination_by j => sizeOf j
decreasing_by all_goals (simp_wf <;> omega)

/-- The comma-and-newline separated items of a non-empty array, each line
starting with `ind` spaces. -/
def dumpsItems (ind : Nat) (x : Json) (xs : List Json) : String :=
  match xs with
  | [] => spaces ind ++ dumps ind x
  | y :: ys => spaces ind ++ dumps ind x ++ ",\n" ++ dumpsItems ind y ys
termination_by 1 + sizeOf x + sizeOf xs
decreasing_by all_goals (simp_wf <;> omega)

/-- The comma-and-newline separated `"key": value` fields of a non-empty
object, in insertion order, each line starting with `ind` spaces. -/
def dumpsFields (ind : Nat) (k : String) (v : Json) (fs : List (String × Json)) : String :=
  match fs with
  | [] => spaces ind ++ dumpString k ++ ": " ++ dumps ind v
  | (k2, v2) :: gs => spaces ind ++ dumpString k ++ ": " ++ dumps ind v ++ ",\n" ++ dumpsFields ind k2 v2 gs
termination_by 1 + sizeOf v + sizeOf fs
decreasing_by all_goals (simp_wf <;> omega)

end

/-- The single-quote character, written by code point to keep literals plain. -/
def squote : Char := Char.ofNat 39

/-- Two lower-case hex digits, as in a Python `\xNN` escape. -/
def hex2 (n : Nat) : String :=
  String.mk [hexDigit (n / 16 % 16), hexDigit (n % 16)]

/-- One character of a Python string `repr` with quote character `q`:
backslash and the quote are escaped, newline / carriage return / tab get
short escapes, other control characters become `\xNN`. -/
def pyReprChar (q : Char) (c : Char) : String :=
  if c = Char.ofNat 92 then "\\\\"
  else if c = q then "\\" ++ String.mk [q]
  else if c = Char.ofNat 10 then "\\n"
  else if c = Char.ofNat 13 then "\\r"
  else if c = Char.ofNat 9 then "\\t"
  else if c.toNat < 32 ∨ c.toNat = 127 then "\\x" ++ hex2 c.toNat
  else String.mk [c]

/-- Python `repr` of a string: single-quoted, except that a string holding a
single quote and no double quote is double-quoted. -/
def pyReprStr (s : String) : String :=
  let q := if s.contains squote ∧ ¬ s.contains (Char.ofNat 34) then Char.ofNat 34 else squote
  String.mk [q] ++ String.join (s.toList.map (pyReprChar q)) ++ String.mk [q]

mutual

/-- Python `repr` of a decoded JSON value: `None` / `True` / `False`,
decimal integers, quoted strings, and bracketed containers whose elements
are themselves `repr`-ed and joined by `", "`. -/
def pyRepr : Json → String
  | .null => "None"
  | .bool true => "True"
  | .bool false => "False"
  | .num n => toString n
  | .str s => pyReprStr s
  | .arr xs => "[" ++ pyReprList xs ++ "]"
  | .obj fs => "\x7b" ++ pyReprFields fs ++ "\x7d"
termination_by j => sizeOf j
decreasing_by all_goals (simp_wf <;> omega)

/-- The `", "`-joined `repr`s of the elements of a list. -/
def pyReprList : List Json → String
  | [] => ""
  | [x] => pyRepr x
  | x :: y :: ys => pyRepr x ++ ", " ++ pyReprList (y :: ys)
termination_by xs => sizeOf xs
decreasing_by all_goals (simp_wf <;> omega)

/-- The `", "`-joined `repr key: repr value` pairs of a dict, in insertion
order. -/
def pyReprFields : List (String × Json) → String
  | [] => ""
  | [(k, v)] => pyReprStr k ++ ": " ++ pyRepr v
  | (k, v) :: g :: gs => pyReprStr k ++ ": " ++ pyRepr v ++ ", " ++ pyReprFields (g :: gs)
termination_by fs => sizeOf fs
decreasing_by all_goals (simp_wf <;> omega)

end

/-- Python `str` of a decoded JSON value: a string is itself; every other
value prints as its `repr` (`str` and `repr` agree on numbers, booleans,
`None`, lists and dicts). -/
def pyStr : Json → String
  | .str s => s
  | j => pyRepr j

/-- Python `str.splitlines()` restricted to the `\n`, `\r\n` and `\r` line
boundaries: the string is cut at each boundary and a trailing boundary does
not contribute a final empty line, so the empty string yields `[]`. -/
def splitlinesAux : List Char → List Char → List String
  | [], [] => []
  | [], acc => [String.mk acc.reverse]
  | c :: cs, acc =>
    if c = Char.ofNat 10 then String.mk acc.reverse :: splitlinesAux cs []
    else if c = Char.ofNat 13 then
      match cs with
      | d :: cs2 =>
        if d = Char.ofNat 10 then String.mk acc.reverse :: splitlinesAux cs2 []
        else String.mk acc.reverse :: splitlinesAux (d :: cs2) []
      | [] => [String.mk acc.reverse]
    else splitlinesAux cs (c :: acc)

/-- `s.splitlines()`. -/
def splitlines (s : String) : List String :=
  splitlinesAux s.toList []

/-- Python `len` applied to a decoded JSON value: strings, lists and dicts
have a length; numbers, booleans and `None` raise `TypeError`. -/
def pyLen : Json → Option Nat
  | .str s => some s.length
  | .arr xs => some xs.length
  | .obj fs => some fs.length
  | _ => none

/-- Python iteration over a decoded JSON value that has a length:
a list yields its elements, a dict yields its keys, a string yields its
characters as one-character strings.  (Values without a length never reach
the loop: `len(batch)` raises first.) -/
def pyIter : Json → List Json
  | .str s => s.toList.map (fun c => Json.str (String.mk [c]))
  | .arr xs => xs
  | .obj fs => fs.map (fun f => Json.str f.1)
  | _ => []

/-- The string rendered for one batch entry (`http/main.py` lines 39-43):
`json.dumps(entry, indent=2)` when the entry is a dict, `str(entry)`
otherwise. -/
def entryContent : Json → String
  | .obj fs => dumps 0 (.obj fs)
  | j => pyStr j

/-- Rendering one batch entry at 0-based position `i` (`http/main.py`
lines 44-49): the 1-based index zero-padded to two digits and a space
prefix the first line of the content, every later content line is printed
behind three spaces.  When the content has no lines (the empty string),
`lines[0]` raises `IndexError` and nothing is printed for the entry:
the result is `none`. -/
def renderEntry (i : Nat) (e : Json) : Option (List String) :=
  match splitlines (entryContent e) with
  | [] => none
  | l0 :: rest => some ((zfill 2 (i + 1) ++ " " ++ l0) :: rest.map (fun l => "   " ++ l))

/-- The entry loop of `receive_logs`: renders entries in order starting at
0-based index `i`, returning the lines printed so far and whether the loop
completed.  A failing entry prints nothing itself and stops the loop; the
lines of earlier entries remain. -/
def renderBodyAux (i : Nat) : List Json → List String × Bool
  | [] => ([], true)
  | e :: es =>
    match renderEntry i e with
    | none => ([], false)
    | some ls =>
      let r := renderBodyAux (i + 1) es
      (ls ++ r.1, r.2)

/-- The JSON response of the batch endpoint: `jsonify(status=success,
processed=n), 200` or `jsonify(status=error, message=msg), 400`. -/
inductive Response where
  | success (processed : Nat)
  | error (msg : String)
deriving DecidableEq

/-- The HTTP status paired with each response shape. -/
def statusCode : Response → Nat
  | .success _ => 200
  | .error _ => 400

/-- The 48-dash run that follows the block title in both servers. -/
def headerDashes : String := String.mk (List.replicate 48 (Char.ofNat 9472))

/-- The 61-dash separator line printed by both servers. -/
def sepLine : String := String.mk (List.replicate 61 (Char.ofNat 9472))

/-- The console line of the `except` branch of `receive_logs`; the embedded
message stands in for `str(e)`, whose exact wording no theorem uses. -/
def errorLine (msg : String) : String := "Error processing batch: " ++ msg

/-- Stand-in for the message of the exception `request.get_json()` raises on
a body that is not valid JSON. -/
def decodeErrMsg : String := "Failed to decode JSON object"

/-- Stand-in for the `TypeError` message of `len` on a value with no length. -/
def noLenMsg : String := "object has no len()"

/-- Message of the `IndexError` raised by `lines[0]` on an empty line list. -/
def idxErrMsg : String := "list index out of range"

/-- The `receive_logs` handler of `http/main.py`, lines 25-56, as a function
of the previous `batch_count`, the client address, the timestamp and the
result of `request.get_json()` (`none` when that call raised).  Returns the
new `batch_count`, the response, and the console lines printed during the
request (ANSI styling stripped; the leading `"\n"` of the title print is
the initial empty line).  The counter is incremented immediately after a
successful parse; any later exception is caught by the `except` branch,
which prints an error line and answers 400 without undoing the increment
or the lines already printed. -/
def receive_logs (count : Nat) (ip ts : String) (body : Option Json) :
    Nat × Response × List String :=
  match body with
  | none => (count, .error decodeErrMsg, [errorLine decodeErrMsg])
  | some batch =>
    let count2 := count + 1
    let pre := ["", "BATCH #" ++ zfill 4 count2 ++ " " ++ headerDashes,
                "Source:  " ++ ip]
    match pyLen batch with
    | none => (count2, .error noLenMsg, pre ++ [errorLine noLenMsg])
    | some n =>
      let hdr := pre ++ ["Volume:  " ++ toString n ++ " entries",
                         "Received: " ++ ts, sepLine]
      let r := renderBodyAux 0 (pyIter batch)
      if r.2 then
        (count2, .success n, hdr ++ r.1 ++ [sepLine])
      else
        (count2, .error idxErrMsg, hdr ++ r.1 ++ [errorLine idxErrMsg])

/-- A whole-process trace of the batch endpoint: runs `receive_logs` on each
request body in order (address and timestamp fixed, they do not influence
counter or response) and records, per request, the batch identifier printed
in that request's block header (`none` when no header was printed because
the body failed to parse) together with the response. -/
def runBatches (count : Nat) : List (Option Json) → Nat × List (Option Nat × Response)
  | [] => (count, [])
  | b :: bs =>
    let r := receive_logs count "client" "ts" b
    let rest := runBatches r.1 bs
    (rest.1, (match b with | none => none | some _ => some r.1, r.2.1) :: rest.2)

/-- JSON whitespace accepted between tokens by `json.loads`. -/
def isJsonWs (c : Char) : Bool :=
  c = ' ' ∨ c = Char.ofNat 9 ∨ c = Char.ofNat 10 ∨ c = Char.ofNat 13

/-- Drop leading JSON whitespace. -/
def skipWs : List Char → List Char
  | c :: cs => if isJsonWs c then skipWs cs else c :: cs
  | [] => []

/-- Decimal digit test. -/
def isDigitCh (c : Char) : Bool := 48 ≤ c.toNat ∧ c.toNat ≤ 57

/-- Hexadecimal digit value of a character, if it is one. -/
def hexVal (c : Char) : Option Nat :=
  if 48 ≤ c.toNat ∧ c.toNat ≤ 57 then some (c.toNat - 48)
  else if 97 ≤ c.toNat ∧ c.toNat ≤ 102 then some (c.toNat - 87)
  else if 65 ≤ c.toNat ∧ c.toNat ≤ 70 then some (c.toNat - 55)
  else none

/-- Take a maximal run of decimal digits. -/
def takeDigits : List Char → List Char × List Char
  | c :: cs =>
    if isDigitCh c then
      let r := takeDigits cs
      (c :: r.1, r.2)
    else ([], c :: cs)
  | [] => ([], [])

/-- Numeric value of a digit run. -/
def digitsToNat (ds : List Char) : Nat :=
  ds.foldl (fun a c => a * 10 + (c.toNat - 48)) 0

/-- The body of a JSON string literal after the opening quote: characters up
to the closing quote, with the standard backslash escapes (`\uXXXX`
included).  Returns the decoded string and the rest of the input. -/
def parseStrBody : Nat → List Char → List Char → Option (String × List Char)
  | 0, _, _ => none
  | _, [], _ => none
  | fuel + 1, c :: cs, acc =>
    if c = Char.ofNat 34 then some (String.mk acc.reverse, cs)
    else if c = Char.ofNat 92 then
      match cs with
      | [] => none
      | e :: cs2 =>
        if e = Char.ofNat 34 then parseStrBody fuel cs2 (Char.ofNat 34 :: acc)
        else if e = Char.ofNat 92 then parseStrBody fuel cs2 (Char.ofNat 92 :: acc)
        else if e = Char.ofNat 47 then parseStrBody fuel cs2 (Char.ofNat 47 :: acc)
        else if e = 'b' then parseStrBody fuel cs2 (Char.ofNat 8 :: acc)
        else if e = 'f' then parseStrBody fuel cs2 (Char.ofNat 12 :: acc)
        else if e = 'n' then parseStrBody fuel cs2 (Char.ofNat 10 :: acc)
        else if e = 'r' then parseStrBody fuel cs2 (Char.ofNat 13 :: acc)
        else if e = 't' then parseStrBody fuel cs2 (Char.ofNat 9 :: acc)
        else if e = 'u' then
          match cs2 with
          | h1 :: h2 :: h3 :: h4 :: cs3 =>
            match hexVal h1, hexVal h2, hexVal h3, hexVal h4 with
            | some a, some b, some c3, some d =>
              let n := a * 4096 + b * 256 + c3 * 16 + d
              if 55296 ≤ n ∧ n ≤ 57343 then none
              else parseStrBody fuel cs3 (Char.ofNat n :: acc)
            | _, _, _, _ => none
          | _ => none
        else none
    else if c.toNat < 32 then none
    else parseStrBody fuel cs (c :: acc)

mutual

/-- One JSON value at the head of the input, i.e. the grammar accepted by
`json.loads` restricted to integer numbers (fraction or exponent parts make
the embedded parse fail; see the model restriction in the header).  Leading
whitespace is skipped; the remaining input is returned unconsumed. -/
def parseVal : Nat → List Char → Option (Json × List Char)
  | 0, _ => none
  | fuel + 1, cs0 =>
    match skipWs cs0 with
    | [] => none
    | c :: cs =>
      if c = 'n' then
        match cs with
        | 'u' :: 'l' :: 'l' :: rest => some (.null, rest)
        | _ => none
      else if c = 't' then
        match cs with
        | 'r' :: 'u' :: 'e' :: rest => some (.bool true, rest)
        | _ => none
      else if c = 'f' then
        match cs with
        | 'a' :: 'l' :: 's' :: 'e' :: rest => some (.bool false, rest)
        | _ => none
      else if c = Char.ofNat 34 then
        match parseStrBody (cs.length + 1) cs [] with
        | some (s, rest) => some (.str s, rest)
        | none => none
      else if c = '[' then
        match skipWs cs with
        | ']' :: rest => some (.arr [], rest)
        | cs2 => parseArrItems fuel cs2 []
      else if c = Char.ofNat 123 then
        match skipWs cs with
        | d :: rest =>
          if d = Char.ofNat 125 then some (.obj [], rest)
          else parseObjItems fuel (d :: rest) []
        | [] => none
      else if c = '-' ∨ isDigitCh c then
        let neg := c = '-'
        let body := if neg then cs else c :: cs
        match takeDigits body with
        | ([], _) => none
        | (ds, rest) =>
          if ds.length > 1 ∧ ds.headI = '0' then none
          else
            match rest with
            | r :: _ =>
              if r = '.' ∨ r = 'e' ∨ r = 'E' then none
              else some (.num (if neg then -(digitsToNat ds : Int) else digitsToNat ds), rest)
            | [] => some (.num (if neg then -(digitsToNat ds : Int) else digitsToNat ds), rest)
      else none

/-- The comma-separated items of a non-empty JSON array, up to and including
the closing bracket. -/
def parseArrItems (fuel : Nat) (cs : List Char) (acc : List Json) : Option (Json × List Char) :=
  match fuel with
  | 0 => none
  | fuel + 1 =>
    match parseVal fuel cs with
    | none => none
    | some (v, rest) =>
      match skipWs rest with
      | ',' :: rest2 => parseArrItems fuel rest2 (v :: acc)
      | ']' :: rest2 => some (.arr (v :: acc).reverse, rest2)
      | _ => none

/-- The comma-separated `"key": value` members of a non-empty JSON object,
up to and including the closing brace.  A repeated key overwrites the value
at the key's first position, as `dict[key] = value` does in the decoder. -/
def parseObjItems (fuel : Nat) (cs : List Char) (acc : List (String × Json)) :
    Option (Json × List Char) :=
  match fuel with
  | 0 => none
  | fuel + 1 =>
    match skipWs cs with
    | c :: cs2 =>
      if c = Char.ofNat 34 then
        match parseStrBody (cs2.length + 1) cs2 [] with
        | none => none
        | some (k, rest) =>
          match skipWs rest with
          | ':' :: rest2 =>
            match parseVal fuel rest2 with
            | none => none
            | some (v, rest3) =>
              let acc2 := if acc.any (fun f => f.1 = k)
                          then acc.map (fun f => if f.1 = k then (k, v) else f)
                          else acc ++ [(k, v)]
              match skipWs rest3 with
              | ',' :: rest4 => parseObjItems fuel rest4 acc2
              | d :: rest4 =>
                if d = Char.ofNat 125 then some (.obj acc2, rest4) else none
              | [] => none
          | _ => none
      else none
    | [] => none

end

/-- `json.loads` on a whole message: one value, with nothing but whitespace
after it. -/
def loads (s : String) : Option Json :=
  match parseVal (s.length + 2) s.toList with
  | some (v, rest) => if skipWs rest = [] then some v else none
  | none => none

/-- The data printed for one stream message (`socket/main.py` lines 42-48):
the sequence identifier assigned by the shared counter, the format label,
and the content string — `json.dumps(data, indent=2)` when `json.loads`
succeeded, the raw message text otherwise. -/
structure StreamBlock where
  seqId : Nat
  format : String
  content : String
deriving DecidableEq

/-- One iteration of the `async for message in websocket` loop
(`socket/main.py` lines 41-58): `self.message_count` is incremented first;
then `json.loads` is attempted, a failure being caught by the bare `except`
and falling back to the raw text with `is_struct = False`.  Returns the new
counter and the block to print. -/
def handleMessage (count : Nat) (msg : String) : Nat × StreamBlock :=
  let c := count + 1
  match loads msg with
  | some d => (c, ⟨c, "Structured (JSON)", dumps 0 d⟩)
  | none => (c, ⟨c, "Plain Text", msg⟩)

/-- The console lines of one stream block (ANSI styling stripped; the
leading empty line is the `"\n"` of the title print): title with the
zero-padded identifier, source address, timestamp, format label, separator,
each content line behind two spaces, separator. -/
def blockLines (addr ts : String) (b : StreamBlock) : List String :=
  ["", "ENTRY #" ++ zfill 4 b.seqId ++ " " ++ headerDashes,
   "Source: " ++ addr,
   "Time:   " ++ ts,
   "Format: " ++ b.format,
   sepLine] ++ (splitlines b.content).map (fun l => "  " ++ l) ++ [sepLine]

/-- The message loop of one stream connection: every message is handled by
`handleMessage`; no message — in particular none that fails to parse as
JSON — ends the loop, which stops only when the transport closes (the list
of delivered messages ends). -/
def processConn (count : Nat) : List String → Nat × List StreamBlock
  | [] => (count, [])
  | m :: ms =>
    let r := handleMessage count m
    let rest := processConn r.1 ms
    (rest.1, r.2 :: rest.2)

/-- The endpoint-level view of several concurrent connections: the input is
the global delivery order of messages, each tagged with the connection it
arrived on.  The event loop runs each message's handler iteration to
completion (there is no `await` between the counter increment and the
prints), so every delivery is one atomic `handleMessage` step against the
single shared counter; the connection tag plays no role in it. -/
def processAll (count : Nat) : List (Nat × String) → Nat × List StreamBlock
  | [] => (count, [])
  | (_, m) :: ms =>
    let r := handleMessage count m
    let rest := processAll r.1 ms
    (rest.1, r.2 :: rest.2)

theorem splitlinesAux_ne_nil : ∀ (cs acc : List Char), cs ≠ [] ∨ acc ≠ [] →
    splitlinesAux cs acc ≠ []
  | [], acc, h => by
    cases acc with
    | nil => simp at h
    | cons a as => simp [splitlinesAux]
  | c :: cs, acc, _ => by
    unfold splitlinesAux
    by_cases h10 : c = Char.ofNat 10
    · simp [h10]
    · by_cases h13 : c = Char.ofNat 13
      · simp only [h10, h13, if_true, if_false]
        cases cs with
        | nil => simp
        | cons d cs2 => by_cases hd : d = Char.ofNat 10 <;> simp [hd]
      · simp only [h10, h13, if_false]
        exact splitlinesAux_ne_nil cs (c :: acc) (Or.inr (by simp))

theorem splitlines_ne_nil {s : String} (h : s ≠ "") : splitlines s ≠ [] := by
  cases s with
  | mk data =>
    apply splitlinesAux_ne_nil
    left
    intro hd
    apply h
    subst hd
    rfl

theorem renderEntry_eq_some {e : Json} (i : Nat) (h : entryContent e ≠ "") :
    ∃ l0 rest, splitlines (entryContent e) = l0 :: rest ∧
      renderEntry i e =
        some ((zfill 2 (i + 1) ++ " " ++ l0) :: rest.map (fun l => "   " ++ l)) := by
  cases hs : splitlines (entryContent e) with
  | nil => exact absurd hs (splitlines_ne_nil h)
  | cons l0 rest => exact ⟨l0, rest, rfl, by simp [renderEntry, hs]⟩

theorem renderBodyAux_ok : ∀ (i : Nat) (es : List Json),
    (∀ e ∈ es, entryContent e ≠ "") → (renderBodyAux i es).2 = true
  | _, [], _ => rfl
  | i, e :: es, h => by
    obtain ⟨l0, rest, -, hr⟩ := renderEntry_eq_some (e := e) i (h e (by simp))
    simp only [renderBodyAux, hr]
    exact renderBodyAux_ok (i + 1) es (fun x hx => h x (by simp [hx]))

theorem receive_logs_count_some (c : Nat) (ip ts : String) (v : Json) :
    (receive_logs c ip ts (some v)).1 = c + 1 := by
  simp only [receive_logs]
  cases hv : pyLen v with
  | none => rfl
  | some n => by_cases hb : (renderBodyAux 0 (pyIter v)).2 <;> simp [hb]

theorem processConn_length (c : Nat) (ms : List String) :
    (processConn c ms).2.length = ms.length := by
  induction ms generalizing c with
  | nil => rfl
  | cons m ms ih => simp [processConn, ih]

theorem processAll_ids (c : Nat) (ms : List (Nat × String)) :
    (processAll c ms).2.map StreamBlock.seqId = List.range' (c + 1) ms.length := by
  induction ms generalizing c with
  | nil => rfl
  | cons m ms ih =>
    obtain ⟨conn, msg⟩ := m
    have hseq : ((handleMessage c msg).2.seqId) = c + 1 := by
      simp only [handleMessage]
      cases loads msg <;> rfl
    have hcnt : (handleMessage c msg).1 = c + 1 := by
      simp only [handleMessage]
      cases loads msg <;> rfl
    simp [processAll, List.range'_succ, hseq, hcnt, ih]

theorem runBatches_spec (c : Nat) (bs : List (Option Json)) :
    (runBatches c bs).1 = c + bs.countP Option.isSome ∧
    (runBatches c bs).2.filterMap Prod.fst =
      List.range' (c + 1) (bs.countP Option.isSome) := by
  induction bs generalizing c with
  | nil => simp [runBatches]
  | cons b bs ih =>
    cases b with
    | none =>
      have h1 : (receive_logs c "client" "ts" none).1 = c := rfl
      simp [runBatches, h1, List.countP_cons, (ih c).1, (ih c).2]
    | some v =>
      have h1 := receive_logs_count_some c "client" "ts" v
      have hr : List.range' (c + 1) (List.countP Option.isSome bs + 1) =
          (c + 1) :: List.range' (c + 2) (List.countP Option.isSome bs) := rfl
      simp only [runBatches, h1, List.countP_cons, Option.isSome_some, if_true,
                 List.filterMap_cons, (ih (c + 1)).1, (ih (c + 1)).2]
      constructor
      · omega
      · exact hr.symm

/-- Claim C1, counterexample to the claim as stated: a body that is valid
JSON but not an array — here the JSON object `\x7b"x": 1\x7d` — is NOT
answered with a 400-style error and DOES increment the batch counter:
`receive_logs` never checks for an array, iterates the dict over its keys,
and returns the success response. -/
theorem C1_counterexample :
    (receive_logs 0 "client" "ts" (some (Json.obj [("x", Json.num 1)]))).2.1 =
      Response.success 1 ∧
    (receive_logs 0 "client" "ts" (some (Json.obj [("x", Json.num 1)]))).1 = 1 := by
  decide

/-- Claim C1, amended: a body that is not valid JSON (the `request.get_json()`
call raises) is answered with the 400-style error payload and the batch
counter is not incremented.  A body that parses, array or not, always
increments the counter; a parsed body that is not a sized value (a number,
a boolean or `null`) then fails at `len(batch)` and is answered with the
400-style error, the counter staying incremented. -/
theorem C1_decode_failure_handling :
    (∀ count ip ts, receive_logs count ip ts none =
        (count, Response.error decodeErrMsg, [errorLine decodeErrMsg])) ∧
    (∀ count ip ts (v : Json), (receive_logs count ip ts (some v)).1 = count + 1) ∧
    (∀ count ip ts (v : Json), pyLen v = none →
        (receive_logs count ip ts (some v)).2.1 = Response.error noLenMsg) := by
  refine ⟨fun _ _ _ => rfl, fun c ip ts v => receive_logs_count_some c ip ts v, ?_⟩
  intro c ip ts v h
  simp [receive_logs, h]

/-- Closed instance of `C1_decode_failure_handling`: the JSON number `7`
has no `len`, and the response to it is the embedded 400-style error. -/
theorem C1_witness :
    pyLen (Json.num 7) = none ∧
    (receive_logs 0 "client" "ts" (some (Json.num 7))).2.1 = Response.error noLenMsg :=
  ⟨rfl, C1_decode_failure_handling.2.2 0 "client" "ts" (Json.num 7) rfl⟩

/-- Claim C2, counterexample to the claim as stated: the valid JSON array
`[""]` of one entry is not answered with `processed == 1` — the entry's
textual form is the empty string, `"".splitlines()` is `[]`, `lines[0]`
raises `IndexError`, and the endpoint answers with the 400-style error. -/
theorem C2_counterexample :
    (receive_logs 0 "client" "ts" (some (Json.arr [Json.str ""]))).2.1 =
      Response.error idxErrMsg ∧
    (receive_logs 0 "client" "ts" (some (Json.arr [Json.str ""]))).2.1 ≠
      Response.success 1 := by
  decide

/-- Claim C2, amended: for every valid JSON array each of whose entries has
a non-empty textual form, the endpoint increments the counter and answers
with the success response reporting the length of the array. -/
theorem C2_batch_success (count : Nat) (ip ts : String) (xs : List Json)
    (h : ∀ e ∈ xs, entryContent e ≠ "") :
    (receive_logs count ip ts (some (Json.arr xs))).1 = count + 1 ∧
    (receive_logs count ip ts (some (Json.arr xs))).2.1 = Response.success xs.length := by
  refine ⟨receive_logs_count_some count ip ts (Json.arr xs), ?_⟩
  have hok := renderBodyAux_ok 0 xs h
  simp [receive_logs, pyLen, pyIter, hok]

/-- Closed instance of `C2_batch_success` at the two-entry array
`["a", "b"]`. -/
theorem C2_witness :
    (∀ e ∈ [Json.str "a", Json.str "b"], entryContent e ≠ "") ∧
    (receive_logs 0 "client" "ts" (some (Json.arr [Json.str "a", Json.str "b"]))).1 = 0 + 1 ∧
    (receive_logs 0 "client" "ts" (some (Json.arr [Json.str "a", Json.str "b"]))).2.1 =
      Response.success 2 := by
  have hh : ∀ e ∈ [Json.str "a", Json.str "b"], entryContent e ≠ "" := by decide
  exact ⟨hh, (C2_batch_success 0 "client" "ts" [Json.str "a", Json.str "b"] hh).1,
         (C2_batch_success 0 "client" "ts" [Json.str "a", Json.str "b"] hh).2⟩

/-- Claim C3, counterexample to the claim as stated: on a fresh process the
trace `[[""]]` then `[["a"]]` (both valid arrays) leaves the first request
failing during rendering after the counter moved to 1 and the header
printed, so the FIRST successfully processed batch is the second request
and its header identifier is 2, not 1. -/
theorem C3_counterexample :
    (runBatches 0 [some (Json.arr [Json.str ""]), some (Json.arr [Json.str "a"])]).2 =
      [(some 1, Response.error idxErrMsg), (some 2, Response.success 1)] := by
  decide

/-- Claim C3, amended: batch identifiers are strictly increasing, never
reused and never reset on error, but they advance on every request whose
body PARSES (not only on successfully processed ones): over any trace the
header identifiers of the parsed requests are exactly the consecutive run
1, 2, 3, … in order — so a parsed batch that later faults during rendering
consumes an identifier, and the identifiers of the successfully processed
batches are a strictly increasing subsequence that may skip values. -/
theorem C3_batch_identifiers (bs : List (Option Json)) :
    (runBatches 0 bs).2.filterMap Prod.fst =
      List.range' 1 (bs.countP Option.isSome) ∧
    (runBatches 0 bs).1 = bs.countP Option.isSome := by
  have h := runBatches_spec 0 bs
  exact ⟨by simpa using h.2, by simpa using h.1⟩

/-- Claim C4, counterexample to the claim as stated: the entry whose
textual form is the empty string is NOT rendered — `renderEntry` fails
(`lines[0]` raises `IndexError` in the source). -/
theorem C4_counterexample :
    renderEntry 0 (Json.str "") = none := by
  decide

/-- Claim C4, amended: every entry whose textual form is non-empty is
rendered, never dropped: the rendering yields one output line per line of
the textual form, the first carrying the index prefix. -/
theorem C4_render_total_on_nonempty (i : Nat) (e : Json) (h : entryContent e ≠ "") :
    ∃ l0 rest, splitlines (entryContent e) = l0 :: rest ∧
      renderEntry i e =
        some ((zfill 2 (i + 1) ++ " " ++ l0) :: rest.map (fun l => "   " ++ l)) :=
  renderEntry_eq_some i h

/-- Closed instance of `C4_render_total_on_nonempty` at the entry `"a"`. -/
theorem C4_witness :
    entryContent (Json.str "a") ≠ "" ∧
    ∃ l0 rest, splitlines (entryContent (Json.str "a")) = l0 :: rest ∧
      renderEntry 0 (Json.str "a") =
        some ((zfill 2 1 ++ " " ++ l0) :: rest.map (fun l => "   " ++ l)) :=
  ⟨by decide, C4_render_total_on_nonempty 0 (Json.str "a") (by decide)⟩

/-- Claim C5, confirmed: whenever an entry at 0-based position `i` is
rendered, its first output line is the 1-based index zero-padded to two
digits, a space, and the first line of the content; every later line is the
corresponding content line behind exactly three spaces with no index; the
content is pretty-printed JSON for a mapping entry and the plain textual
form for every other entry.  The final conjunct is the spec's scenario:
POST `["a", \x7b"x": 1\x7d]` on a fresh process. -/
theorem C5_entry_format :
    (∀ (i : Nat) (e : Json) (ls : List String), renderEntry i e = some ls →
       ∃ l0 rest, splitlines (entryContent e) = l0 :: rest ∧
         ls = (zfill 2 (i + 1) ++ " " ++ l0) :: rest.map (fun l => "   " ++ l)) ∧
    (∀ fs, entryContent (Json.obj fs) = dumps 0 (Json.obj fs)) ∧
    (∀ e : Json, (∀ fs, e ≠ Json.obj fs) → entryContent e = pyStr e) ∧
    receive_logs 0 "127.0.0.1" "ts"
        (some (Json.arr [Json.str "a", Json.obj [("x", Json.num 1)]])) =
      (1, Response.success 2,
       ["", "BATCH #0001 " ++ headerDashes, "Source:  127.0.0.1", "Volume:  2 entries",
        "Received: ts", sepLine, "01 a", "02 \x7b", "     \"x\": 1", "   \x7d", sepLine]) := by
  refine ⟨?_, fun fs => rfl, ?_, ?_⟩
  · intro i e ls h
    cases hs : splitlines (entryContent e) with
    | nil => simp [renderEntry, hs] at h
    | cons l0 rest =>
      simp only [renderEntry, hs, Option.some.injEq] at h
      exact ⟨l0, rest, rfl, h.symm⟩
  · intro e h
    cases e with
    | obj fs => exact absurd rfl (h fs)
    | null => rfl
    | bool b => rfl
    | num n => rfl
    | str s => rfl
    | arr xs => rfl
  · simp [receive_logs, entryContent, pyStr, dumps, dumpsFields, spaces, dumpString,
          dumpChar, renderBodyAux, renderEntry, splitlines, splitlinesAux, pyIter,
          pyLen, zfill]
    decide

/-- Closed instance of `C5_entry_format`: the rendering of the entry `"a"`
at position 0, and the content choice for a non-mapping entry. -/
theorem C5_witness :
    (∃ l0 rest, splitlines (entryContent (Json.str "a")) = l0 :: rest ∧
       ["01 a"] = (zfill 2 (0 + 1) ++ " " ++ l0) :: rest.map (fun l => "   " ++ l)) ∧
    entryContent Json.null = pyStr Json.null :=
  ⟨C5_entry_format.1 0 (Json.str "a") ["01 a"] (by decide),
   C5_entry_format.2.2.1 Json.null (fun fs h => Json.noConfusion h)⟩

/-- Claim C6, confirmed: a stream message that does not parse as JSON is no
error — the handler still increments the shared counter, tags the block
`Plain Text`, keeps the raw message text as the content unchanged, and the
connection loop goes on to handle every remaining message. -/
theorem C6_stream_plaintext (count : Nat) (m : String) (ms : List String)
    (h : loads m = none) :
    handleMessage count m = (count + 1, ⟨count + 1, "Plain Text", m⟩) ∧
    (processConn count (m :: ms)).2.length = ms.length + 1 := by
  constructor
  · simp [handleMessage, h]
  · simp [processConn, processConn_length]

/-- Closed instance of `C6_stream_plaintext` at the message `hello`. -/
theorem C6_witness :
    loads "hello" = none ∧
    handleMessage 0 "hello" = (1, ⟨1, "Plain Text", "hello"⟩) ∧
    (processConn 0 ["hello"]).2.length = 1 :=
  ⟨rfl, (C6_stream_plaintext 0 "hello" [] rfl).1, (C6_stream_plaintext 0 "hello" [] rfl).2⟩

/-- Claim C7, confirmed: for any global delivery order of `M` messages,
however they are distributed over connections, the identifiers emitted in
the block headers are exactly `1, 2, …, M` in order — no duplicates, no
gaps — because every delivery is one serialized increment of the shared
counter. -/
theorem C7_stream_identifiers (ms : List (Nat × String)) :
    (processAll 0 ms).2.map StreamBlock.seqId = List.range' 1 ms.length ∧
    ((processAll 0 ms).2.map StreamBlock.seqId).Nodup := by
  have h := processAll_ids 0 ms
  constructor
  · simpa using h
  · rw [h]
    exact List.nodup_range' (0 + 1) ms.length

/-- Claim C8, confirmed: rendering is a pure function of the entry and its
metadata — formatting the same input twice is byte-identical — and JSON
pretty-printing emits an object's fields in insertion order (not sorted)
with the fixed two-space indent, spelled out here for a two-field object of
integer values: the first inserted key is printed first, each field line
behind `spaces 2`. -/
theorem C8_render_deterministic :
    (∀ (addr ts : String) (b : StreamBlock), blockLines addr ts b = blockLines addr ts b) ∧
    (∀ (i : Nat) (e : Json), renderEntry i e = renderEntry i e) ∧
    (∀ (a b : String) (va vb : Int), a ≠ b →
      dumps 0 (Json.obj [(a, Json.num va), (b, Json.num vb)]) =
        "\x7b\n" ++ (spaces 2 ++ dumpString a ++ ": " ++ toString va ++ ",\n" ++
          (spaces 2 ++ dumpString b ++ ": " ++ toString vb)) ++ "\n" ++ spaces 0 ++ "\x7d") := by
  refine ⟨fun _ _ _ => rfl, fun _ _ => rfl, ?_⟩
  intro a b va vb hab
  simp [dumps, dumpsFields]

/-- Closed instance of `C8_render_deterministic`: keys `"b"` then `"a"`,
printed in that (insertion, unsorted) order. -/
theorem C8_witness :
    ("b" : String) ≠ "a" ∧
    dumps 0 (Json.obj [("b", Json.num 1), ("a", Json.num 2)]) =
      "\x7b\n" ++ (spaces 2 ++ dumpString "b" ++ ": " ++ toString (1 : Int) ++ ",\n" ++
        (spaces 2 ++ dumpString "a" ++ ": " ++ toString (2 : Int))) ++ "\n" ++ spaces 0 ++ "\x7d" :=
  ⟨by decide, C8_render_deterministic.2.2 "b" "a" 1 2 (by decide)⟩

/-- Claim C9, confirmed: on a fresh connection the messages `hello` then
`\x7b"a":1\x7d` produce identifier 1 (zero-padded `0001`) with format
`Plain Text` and content `hello`, then identifier 2 (`0002`) with format
`Structured (JSON)` and content the two-space-indented pretty-printing of
the object. -/
theorem C9_stream_scenario :
    processConn 0 ["hello", "\x7b\"a\":1\x7d"] =
      (2, [⟨1, "Plain Text", "hello"⟩,
           ⟨2, "Structured (JSON)", "\x7b\n  \"a\": 1\n\x7d"⟩]) ∧
    zfill 4 1 = "0001" ∧ zfill 4 2 = "0002" := by
  refine ⟨?_, rfl, rfl⟩
  have hd : dumps 0 (Json.obj [("a", Json.num 1)]) = "\x7b\n  \"a\": 1\n\x7d" := by
    simp [dumps, dumpsFields, spaces, dumpString, dumpChar]
    decide
  have h1 : loads "hello" = none := rfl
  have h2 : loads "\x7b\"a\":1\x7d" = some (Json.obj [("a", Json.num 1)]) := rfl
  simp [processConn, handleMessage, h1, h2, hd]

/-- Claim C10, confirmed: when the body parses but the request still ends in
the error response (a fault after the parse, during rendering), the batch
counter remains incremented, the response is the 400-style one, and the
block lines already printed remain — the output still begins with the empty
line and the `BATCH #` header carrying the incremented counter; nothing is
rolled back. -/
theorem C10_error_after_parse (count : Nat) (ip ts : String) (v : Json)
    (h : ∃ msg, (receive_logs count ip ts (some v)).2.1 = Response.error msg) :
    (receive_logs count ip ts (some v)).1 = count + 1 ∧
    statusCode (receive_logs count ip ts (some v)).2.1 = 400 ∧
    (receive_logs count ip ts (some v)).2.2.take 2 =
      ["", "BATCH #" ++ zfill 4 (count + 1) ++ " " ++ headerDashes] := by
  refine ⟨receive_logs_count_some count ip ts v, ?_, ?_⟩
  · obtain ⟨msg, hm⟩ := h
    rw [hm]
    rfl
  · simp only [receive_logs]
    cases hv : pyLen v with
    | none => rfl
    | some n => by_cases hb : (renderBodyAux 0 (pyIter v)).2 <;> simp [hb]

/-- Closed instance of `C10_error_after_parse`: the body `7` parses, then
faults at `len(batch)`; the counter stays at 1 and the header line printed
for batch 1 remains. -/
theorem C10_witness :
    (∃ msg, (receive_logs 0 "client" "ts" (some (Json.num 7))).2.1 = Response.error msg) ∧
    (receive_logs 0 "client" "ts" (some (Json.num 7))).1 = 0 + 1 ∧
    statusCode (receive_logs 0 "client" "ts" (some (Json.num 7))).2.1 = 400 ∧
    (receive_logs 0 "client" "ts" (some (Json.num 7))).2.2.take 2 =
      ["", "BATCH #" ++ zfill 4 (0 + 1) ++ " " ++ headerDashes] := by
  have h : ∃ msg, (receive_logs 0 "client" "ts" (some (Json.num 7))).2.1 =
      Response.error msg := ⟨noLenMsg, by decide⟩
  exact ⟨h, (C10_error_after_parse 0 "client" "ts" (Json.num 7) h).1,
         (C10_error_after_parse 0 "client" "ts" (Json.num 7) h).2.1,
         (C10_error_after_parse 0 "client" "ts" (Json.num 7) h).2.2⟩
